import Mathlib

/-
Verification of the real-time streaming audio session manager of the
open-claude repository. The definitions below are shallow embeddings of the
JavaScript source:
  - streaming-server-v2.js (RealTimeAIReceptionist)
  - src/unnamed/part_008 (UnifiedAIReceptionist: pcmToMulaw / linearToMulaw)
  - src/unnamed/part_009 (StreamingVoiceService, two divergent copies)
JavaScript numbers are modelled as Int (samples, timestamps) and Nat (bytes,
lengths); Buffers as List Nat; the Map registries as association lists; the
fallible external capabilities (Whisper, handleCallLogic, ElevenLabs, OpenAI
TTS) as explicit outcome parameters of type Except / Option.
-/

/-! ## Audio codec -/

/-- Per-byte mu-law decompression from convertMulawToWav,
streaming-server-v2.js lines 208-222 (identical copy in part_008 lines
274-288): sign from bit 7, 3-bit exponent, 4-bit mantissa, magnitude
(mantissa with 0x10) shifted by exponent+3, sign applied, clamped to the
16-bit signed range. -/
def mulawDecompressSample (mulaw : Nat) : Int :=
  let sign : Int := if mulaw &&& 0x80 ≠ 0 then -1 else 1
  let exponent : Nat := (mulaw &&& 0x70) >>> 4
  let mantissa : Nat := mulaw &&& 0x0F
  let sample : Int := Int.ofNat ((mantissa ||| 0x10) <<< (exponent + 3)) * sign
  max (-32768) (min 32767 sample)

/-- Exponent lookup table exp_lut of linearToMulaw, part_008 line 539. -/
def mulawExpLut : List Nat := [256, 512, 1024, 2048, 4096, 8192, 16384, 32768]

/-- Embeds the decrementing for-loop of linearToMulaw, part_008 lines
538-541: starting from exponent = 7, decrement while exponent > 0 and
sample < exp_lut[exponent - 1]. -/
def mulawExponentSearch (sample : Nat) : Nat → Nat
  | 0 => 0
  | e + 1 => if sample < mulawExpLut.getD e 0 then mulawExponentSearch sample e else e + 1

/-- linearToMulaw, part_008 lines 523-545. The returned JavaScript value is
the bitwise complement of the packed byte, which for a 32-bit integer x is
-(x) - 1; it is modelled exactly so, as an Int. -/
def linearToMulaw (sample : Int) : Int :=
  let signBit : Nat := if sample < 0 then 0x80 else 0x00
  let magnitude : Nat := min sample.natAbs 0x1FFF
  let biased : Nat := magnitude + 0x84
  let exponent : Nat := mulawExponentSearch biased 7
  let mantissa : Nat := (biased >>> (exponent + 3)) &&& 0x0F
  let packed : Nat := signBit ||| (exponent <<< 4) ||| mantissa
  Int.sub (Int.neg (Int.ofNat packed)) 1

/-- The byte that pcmToMulaw (part_008 lines 511-521) actually stores:
assigning the (negative) result of linearToMulaw into a Node Buffer
truncates it to its low 8 bits, i.e. reduces it modulo 256. -/
def pcmToMulawByte (sample : Int) : Nat := (linearToMulaw sample % 256).toNat

/-- Round trip of claim C3: decode a mu-law byte to a 16-bit linear sample
with the per-byte decompression of convertMulawToWav, then re-encode it with
linearToMulaw as stored by pcmToMulaw. -/
def mulawRoundTrip (b : Nat) : Nat := pcmToMulawByte (mulawDecompressSample b)

/-! ## WAV framing -/

/-- Little-endian byte serialization of a 32-bit field, as produced by
Buffer.writeUInt32LE for values below 2 to the 32. -/
def writeUInt32LE (v : Nat) : List Nat :=
  [v % 256, v / 256 % 256, v / 65536 % 256, v / 16777216 % 256]

/-- Little-endian byte serialization of a 16-bit field, as produced by
Buffer.writeUInt16LE. -/
def writeUInt16LE (v : Nat) : List Nat := [v % 256, v / 256 % 256]

/-- The 44-byte WAV header written by convertToWav, part_009 lines 280-296:
RIFF, riff size 36 + data, WAVE, fmt chunk (PCM, mono, 8000 Hz, 16 bit,
byte rate 16000, block align 2), data chunk with the payload length.
The byte values 82,73,70,70 / 87,65,86,69 / 102,109,116,32 / 100,97,116,97
are the ASCII codes of RIFF, WAVE, fmt-space and data. -/
def wavHeader (dataSize : Nat) : List Nat :=
  [82, 73, 70, 70] ++ writeUInt32LE (36 + dataSize) ++
  [87, 65, 86, 69] ++ [102, 109, 116, 32] ++
  writeUInt32LE 16 ++ writeUInt16LE 1 ++ writeUInt16LE 1 ++
  writeUInt32LE 8000 ++ writeUInt32LE 16000 ++
  writeUInt16LE 2 ++ writeUInt16LE 16 ++
  [100, 97, 116, 97] ++ writeUInt32LE dataSize

/-- convertToWav, part_009 lines 274-298: the 44-byte header followed by the
raw payload (Buffer.concat of header and audio). -/
def convertToWav (audioBuffer : List Nat) : List Nat :=
  wavHeader audioBuffer.length ++ audioBuffer

/-- Value of a 32-bit little-endian field read back from four bytes. -/
def readUInt32LE (bytes : List Nat) : Nat :=
  bytes.getD 0 0 + 256 * bytes.getD 1 0 + 65536 * bytes.getD 2 0 +
    16777216 * bytes.getD 3 0

/-! ## Accumulator / flush policy -/

/-- shouldProcessAudio, first (conservative) copy in part_009, lines 189-198:
flush when the buffer holds at least 3000 ms, or when at least 5000 ms
passed since the last processing, the buffer holds at least 1000 ms and no
cycle is in flight. Buffer duration is chunk count times 20 ms. -/
def shouldProcessAudioConservative (audioBufferLen : Nat)
    (now lastProcessTime : Int) (isProcessing : Bool) : Bool :=
  let bufferDuration : Nat := audioBufferLen * 20
  let timeSinceLastProcess : Int := now - lastProcessTime
  decide (bufferDuration ≥ 3000) ||
    (decide (timeSinceLastProcess ≥ 5000) && decide (bufferDuration ≥ 1000)
      && !isProcessing)

/-- shouldProcessAudio, second (aggressive) copy in part_009, lines 672-681:
same shape with thresholds 800 ms / 2000 ms / 500 ms. -/
def shouldProcessAudioAggressive (audioBufferLen : Nat)
    (now lastProcessTime : Int) (isProcessing : Bool) : Bool :=
  let bufferDuration : Nat := audioBufferLen * 20
  let timeSinceLastProcess : Int := now - lastProcessTime
  decide (bufferDuration ≥ 800) ||
    (decide (timeSinceLastProcess ≥ 2000) && decide (bufferDuration ≥ 500)
      && !isProcessing)

/-- Modelled from the spec (refinement side of claim C4): flush when buffered
duration is at least minFlushDuration, OR when time since the last flush is
at least maxSilenceGap and buffered duration is at least minAudioFloor and
no cycle is currently in flight. -/
def flushDecisionSpec (bufferDuration : Nat) (timeSinceLastFlush : Int)
    (isProcessing : Bool) (minFlushDuration : Nat) (maxSilenceGap : Int)
    (minAudioFloor : Nat) : Bool :=
  decide (bufferDuration ≥ minFlushDuration) ||
    (decide (timeSinceLastFlush ≥ maxSilenceGap)
      && decide (bufferDuration ≥ minAudioFloor) && !isProcessing)

/-! ## Call session data model -/

/-- Call session record created by handleStreamStart, part_009 lines
589-596 (the ws handle is owned by the gateway and not part of the pure
state; lastProcessTime is initially undefined in the source and read back
through an or-zero default, modelled as 0). -/
structure Session where
  streamSid : String
  startTime : Int
  isProcessing : Bool
  lastActivity : Int
  lastProcessTime : Int
deriving Repr, DecidableEq

/-- One conversation turn as pushed by processTranscription, part_009 lines
792-796 and 804-809; user turns carry no intent label. -/
structure Message where
  role : String
  content : String
  intent : Option String
  timestamp : Int
deriving Repr, DecidableEq

/-- Conversation memory record created by handleStreamStart, part_009 lines
602-606. -/
structure Memory where
  messages : List Message
  businessId : String
  context : List (String × String)
deriving Repr, DecidableEq

/-- Result shape of handleCallLogic as consumed by processTranscription,
part_009 lines 799-807: response text plus an intent label. -/
structure CallLogicReply where
  text_response : String
  intent : String
deriving Repr, DecidableEq

/-! ## Speech pipeline (part_009, second copy, lines 645-951) -/

/-- Whitespace test used by String.prototype.trim for the characters that
occur here: space, tab, line feed, carriage return. -/
def jsWhitespaceChar (ch : Char) : Bool :=
  ch == ' ' || ch == '\t' || ch == '\n' || ch == '\r'

/-- Drops the leading whitespace characters of a character list. -/
def dropLeadingJsWhitespace : List Char → List Char
  | [] => []
  | ch :: rest =>
      if jsWhitespaceChar ch then dropLeadingJsWhitespace rest else ch :: rest

/-- Embeds String.prototype.trim: removes leading and trailing
whitespace. -/
def jsTrim (s : String) : String :=
  String.mk
    ((dropLeadingJsWhitespace ((dropLeadingJsWhitespace s.data).reverse)).reverse)

/-- transcribeAudio, part_009 lines 732-752: wraps the audio as WAV, invokes
Whisper (an external outcome parameter from WAV bytes), returns the trimmed
transcription; any thrown error is caught and null is returned. -/
def transcribeAudio (whisper : List Nat → Except Unit String)
    (audioBuffer : List Nat) : Option String :=
  match whisper (convertToWav audioBuffer) with
  | Except.ok t => some (jsTrim t)
  | Except.error _ => none

/-- generateSpeechAudioElevenLabs, part_009 lines 857-893: returns null when
the API key is missing or the HTTP response is not ok (outcome value none),
returns the audio on success, and catches any thrown error (outcome
Except.error), returning null. -/
def generateSpeechAudioElevenLabs
    (elevenLabs : String → Except Unit (Option (List Nat)))
    (text : String) : Option (List Nat) :=
  match elevenLabs text with
  | Except.ok r => r
  | Except.error _ => none

/-- generateSpeechAudio, part_009 lines 898-914 (OpenAI TTS fallback):
returns the audio on success and catches any thrown error, returning
null. -/
def generateSpeechAudio (openaiTts : String → Except Unit (List Nat))
    (text : String) : Option (List Nat) :=
  match openaiTts text with
  | Except.ok a => some a
  | Except.error _ => none

/-- respondWithSpeech, part_009 lines 825-852: looks up the session (no
session means nothing is sent); tries ElevenLabs first, falls back to OpenAI
TTS; when audio was produced it is streamed to the caller and lastActivity
is updated; when both providers fail nothing is sent. Returns the updated
session and the list of audio payloads handed to the outbound streamer. -/
def respondWithSpeech (session : Option Session) (now : Int)
    (elevenLabs : String → Except Unit (Option (List Nat)))
    (openaiTts : String → Except Unit (List Nat))
    (text : String) : Option Session × List (List Nat) :=
  match session with
  | none => (none, [])
  | some s =>
    match generateSpeechAudioElevenLabs elevenLabs text with
    | some a => (some { s with lastActivity := now }, [a])
    | none =>
      match generateSpeechAudio openaiTts text with
      | some a => (some { s with lastActivity := now }, [a])
      | none => (some s, [])

/-- Fallback text sent by the catch branch of processTranscription, part_009
lines 814-819. -/
def apologyText : String :=
  "I\x27m sorry, I\x27m having trouble processing your request. Could you please repeat that?"

/-- processTranscription, part_009 lines 786-820: requires conversation
memory (otherwise returns with no effect); appends the user turn; invokes
handleCallLogic (external outcome); on success appends the assistant turn
with its intent label and speaks the response text; on a thrown error,
catches it and speaks the fixed apology instead (the user turn stays
appended). Returns (memory, session, audio payloads sent). -/
def processTranscription (memory : Option Memory) (session : Option Session)
    (now : Int) (callLogic : Except Unit CallLogicReply)
    (elevenLabs : String → Except Unit (Option (List Nat)))
    (openaiTts : String → Except Unit (List Nat))
    (transcription : String) :
    Option Memory × Option Session × List (List Nat) :=
  match memory with
  | none => (none, session, [])
  | some mem =>
    let mem1 : Memory :=
      { mem with messages := mem.messages ++ [⟨"user", transcription, none, now⟩] }
    match callLogic with
    | Except.ok reply =>
      let mem2 : Memory :=
        { mem1 with messages :=
            mem1.messages ++ [⟨"assistant", reply.text_response, some reply.intent, now⟩] }
      let r := respondWithSpeech session now elevenLabs openaiTts reply.text_response
      (some mem2, r.1, r.2)
    | Except.error _ =>
      let r := respondWithSpeech session now elevenLabs openaiTts apologyText
      (some mem1, r.1, r.2)

/-- Applies the finally block of processAccumulatedAudio, part_009 lines
724-726, to the session object captured at cycle entry. -/
def sessionClearProcessing : Option Session → Option Session
  | none => none
  | some s => some { s with isProcessing := false }

/-- Result of one processAccumulatedAudio cycle: the session, the audio
buffer registry content for this call, the conversation memory, and the list
of outbound audio payloads sent during the cycle. -/
structure CycleResult where
  session : Option Session
  audioBuffers : List (List Nat)
  memory : Option Memory
  sent : List (List Nat)
deriving Repr, DecidableEq

/-- processAccumulatedAudio, part_009 lines 686-727: re-entry guard on
isProcessing; sets isProcessing and lastProcessTime; concatenates the
buffered chunks; skips (without clearing the buffer) when the estimated
duration is under 100 ms; otherwise clears the buffer, transcribes, and when
the transcript is nonempty after trimming runs processTranscription; the
try/catch/finally construction catches every error and always clears
isProcessing on exit. -/
def processAccumulatedAudio (session : Option Session)
    (audioBuffer : List (List Nat)) (memory : Option Memory) (now : Int)
    (whisper : List Nat → Except Unit String)
    (callLogic : Except Unit CallLogicReply)
    (elevenLabs : String → Except Unit (Option (List Nat)))
    (openaiTts : String → Except Unit (List Nat)) : CycleResult :=
  match session with
  | none => ⟨none, audioBuffer, memory, []⟩
  | some s =>
    if s.isProcessing then ⟨some s, audioBuffer, memory, []⟩
    else
      let s1 : Session := { s with isProcessing := true, lastProcessTime := now }
      let combinedAudio : List Nat := audioBuffer.flatten
      let estimatedDuration : Nat := audioBuffer.length * 20
      if estimatedDuration < 100 then
        ⟨some { s1 with isProcessing := false }, audioBuffer, memory, []⟩
      else
        match transcribeAudio whisper combinedAudio with
        | some transcription =>
          if 0 < (jsTrim transcription).length then
            let r := processTranscription memory (some s1) now callLogic
              elevenLabs openaiTts transcription
            ⟨sessionClearProcessing r.2.1, [], r.1, r.2.2⟩
          else
            ⟨some { s1 with isProcessing := false }, [], memory, []⟩
        | none => ⟨some { s1 with isProcessing := false }, [], memory, []⟩

/-! ## Per-call buffering event machine

The asynchronous interleaving of handleMediaFrame and processAccumulatedAudio
for one call is modelled as an event machine. JavaScript runs each handler
synchronously up to its first await, so the observable atomic steps are:
a media frame append (handleMediaFrame, part_009 lines 655-661); the
synchronous entry of a processing cycle up to the first await, which checks
the isProcessing guard, sets it, skips short audio, and otherwise snapshots
and clears the buffer (processAccumulatedAudio, part_009 lines 687-708); and
the cycle completion, which files the snapshot and clears isProcessing
(part_009 lines 713-726). The fields drained and arrived are history
variables recording completed batches and all frames ever appended. -/

inductive CallEvent where
  | media (frame : List Nat)
  | beginCycle
  | endCycle
deriving Repr, DecidableEq

/-- State of one call: the pending buffer (audioBuffers registry entry), the
isProcessing flag, the batches currently being processed (snapshots taken at
cycle entry and not yet completed), and the two history variables. -/
structure CallBufferState where
  pending : List (List Nat)
  isProcessing : Bool
  inFlightBatches : List (List (List Nat))
  drained : List (List (List Nat))
  arrived : List (List Nat)
deriving Repr, DecidableEq

/-- State at session creation: empty buffer, no cycle in flight (part_009
lines 589-599). -/
def callInit : CallBufferState := ⟨[], false, [], [], []⟩

/-- One atomic step of the per-call machine; see the section comment for the
source lines each event embeds. -/
def callStep (s : CallBufferState) : CallEvent → CallBufferState
  | CallEvent.media f =>
      { s with pending := s.pending ++ [f], arrived := s.arrived ++ [f] }
  | CallEvent.beginCycle =>
      if s.isProcessing then s
      else if s.pending.length * 20 < 100 then s
      else
        { s with
          pending := [],
          isProcessing := true,
          inFlightBatches := s.inFlightBatches ++ [s.pending] }
  | CallEvent.endCycle =>
      match s.inFlightBatches with
      | [] => s
      | b :: rest =>
          { s with
            isProcessing := false,
            inFlightBatches := rest,
            drained := s.drained ++ [b] }

/-- Run of the per-call machine from session creation. -/
def runCall (events : List CallEvent) : CallBufferState :=
  events.foldl callStep callInit

/-- Invariant of the per-call machine: completed batches, in-flight batches
and the pending buffer partition the arrived frames in order, at most one
batch is in flight, and a batch is in flight exactly while isProcessing
holds. -/
def callInv (s : CallBufferState) : Prop :=
  s.drained.flatten ++ s.inFlightBatches.flatten ++ s.pending = s.arrived
  ∧ s.inFlightBatches.length ≤ 1
  ∧ (s.isProcessing = true ↔ s.inFlightBatches.length = 1)

/-! ## Server state: session store, lifecycle, stats -/

/-- Association-list lookup modelling Map.prototype.get (keys in a JS Map
are unique). -/
def mapLookup {α : Type} (k : String) : List (String × α) → Option α
  | [] => none
  | (k2, v) :: rest => if k = k2 then some v else mapLookup k rest

/-- Association-list update modelling Map.prototype.set: replaces the
binding in place or appends a new one. -/
def mapSet {α : Type} (k : String) (v : α) : List (String × α) → List (String × α)
  | [] => [(k, v)]
  | (k2, v2) :: rest => if k = k2 then (k, v) :: rest else (k2, v2) :: mapSet k v rest

/-- Association-list removal modelling Map.prototype.delete (keys are
unique, so removing every binding of k equals removing the one). -/
def mapDelete {α : Type} (k : String) : List (String × α) → List (String × α)
  | [] => []
  | (k2, v) :: rest => if k2 = k then mapDelete k rest else (k2, v) :: mapDelete k rest

/-- The three call-keyed registries of StreamingVoiceService (part_009 lines
12-18) plus the set of pending delayed conversation-memory evictions created
by the setTimeout in cleanupCall, recorded as (callSid, deadline). -/
structure ServerState where
  activeCalls : List (String × Session)
  audioBuffers : List (String × List (List Nat))
  conversationMemory : List (String × Memory)
  pendingEvictions : List (String × Int)
deriving Repr, DecidableEq

/-- Status surface returned by getStats, part_009 lines 990-996. -/
structure ServerStats where
  activeCalls : Nat
  conversationsInMemory : Nat
  uptime : Int
deriving Repr, DecidableEq

/-- Fresh service state (constructor, part_009 lines 6-21). -/
def emptyServer : ServerState := ⟨[], [], [], []⟩

/-- Grace delay of the delayed conversation-memory eviction: 300000 ms
(cleanupCall, part_009 line 981 and streaming-server-v2.js line 402). -/
def graceDelayMs : Int := 300000

/-- handleStreamStart, part_009 lines 583-610: registers a fresh session, an
empty audio buffer, and a fresh conversation memory under callSid,
overwriting any previous bindings; pending evictions are not touched. -/
def handleStreamStart (callSid streamSid : String) (now : Int)
    (s : ServerState) : ServerState :=
  { s with
    activeCalls := mapSet callSid ⟨streamSid, now, false, now, 0⟩ s.activeCalls,
    audioBuffers := mapSet callSid [] s.audioBuffers,
    conversationMemory := mapSet callSid ⟨[], "pizzakarachi", []⟩ s.conversationMemory }

/-- cleanupCall, part_009 lines 974-985 (same logic in
streaming-server-v2.js lines 395-405): removes the session and its audio
buffer immediately, leaves the conversation memory in place, and schedules
its eviction at now plus the grace delay. -/
def cleanupCall (callSid : String) (now : Int) (s : ServerState) : ServerState :=
  { s with
    activeCalls := mapDelete callSid s.activeCalls,
    audioBuffers := mapDelete callSid s.audioBuffers,
    pendingEvictions := s.pendingEvictions ++ [(callSid, now + graceDelayMs)] }

/-- Firing of the setTimeout callbacks scheduled by cleanupCall: every
pending eviction whose deadline has been reached deletes its conversation
memory unconditionally (part_009 lines 979-981). -/
def fireDueEvictions (now : Int) (s : ServerState) : ServerState :=
  { s with
    conversationMemory :=
      (s.pendingEvictions.filter (fun p => decide (p.2 ≤ now))).foldl
        (fun m p => mapDelete p.1 m) s.conversationMemory,
    pendingEvictions :=
      s.pendingEvictions.filter (fun p => !(decide (p.2 ≤ now))) }

/-- getStats, part_009 lines 990-996: sizes of the two registries plus
process uptime. -/
def getStats (s : ServerState) (uptime : Int) : ServerStats :=
  ⟨s.activeCalls.length, s.conversationMemory.length, uptime⟩

/-- The user-turn append of processTranscription (part_009 lines 788-796)
expressed on the server-level memory registry: the code mutates the object
returned by the map lookup, which is this update; no effect when the call
has no conversation memory. -/
def recordUserTurn (callSid content : String) (now : Int)
    (s : ServerState) : ServerState :=
  match mapLookup callSid s.conversationMemory with
  | none => s
  | some mem =>
    { s with
      conversationMemory :=
        mapSet callSid
          { mem with messages := mem.messages ++ [⟨"user", content, none, now⟩] }
          s.conversationMemory }

/-- Result of handleMediaFrame on the two registries it can touch, plus
whether the flush guard fired (that is, whether a transcribe/respond cycle
would be invoked for this frame). -/
structure MediaFrameResult where
  activeCalls : List (String × Session)
  audioBuffers : List (String × List (List Nat))
  invoked : Bool
deriving Repr, DecidableEq

/-- handleMediaFrame, part_009 lines 645-666: a frame on a connection with
no bound callSid returns at once; a bound callSid with no active session
returns at once; otherwise lastActivity is updated, the decoded payload is
appended to the buffer, and the flush decision (aggressive profile) is
evaluated to decide whether processAccumulatedAudio runs. -/
def handleMediaFrame (callSid : Option String)
    (activeCalls : List (String × Session))
    (audioBuffers : List (String × List (List Nat)))
    (now : Int) (payload : List Nat) : MediaFrameResult :=
  match callSid with
  | none => ⟨activeCalls, audioBuffers, false⟩
  | some c =>
    match mapLookup c activeCalls with
    | none => ⟨activeCalls, audioBuffers, false⟩
    | some sess =>
      let sess2 : Session := { sess with lastActivity := now }
      let buf : List (List Nat) := (mapLookup c audioBuffers).getD []
      let buf2 : List (List Nat) := buf ++ [payload]
      ⟨mapSet c sess2 activeCalls, mapSet c buf2 audioBuffers,
        shouldProcessAudioAggressive buf2.length now sess2.lastProcessTime
          sess2.isProcessing⟩

/-! ## Concrete inputs used by witnesses and counterexamples -/

/-- A session with no cycle in flight. -/
def c1Session : Session := ⟨"MZ1", 0, false, 0, 0⟩

/-- Five 20 ms frames: 100 ms of buffered audio, enough to pass the
minimum-length check. -/
def c1Buffer : List (List Nat) := [[255], [255], [255], [255], [255]]

/-- A fresh conversation memory. -/
def c1Memory : Memory := ⟨[], "pizzakarachi", []⟩

/-- Whisper outcome: transcription succeeds. -/
def c1Whisper : List Nat → Except Unit String := fun _ => Except.ok "I want a pizza"

/-- ElevenLabs outcome: unavailable (missing key or non-ok response). -/
def c1Eleven : String → Except Unit (Option (List Nat)) := fun _ => Except.ok none

/-- OpenAI TTS outcome: synthesis succeeds with a fixed payload. -/
def c1Tts : String → Except Unit (List Nat) := fun _ => Except.ok [1, 2, 3]

/-- Claim C6 trace, step 1: start of call CA1 at time 0. -/
def c6AfterStart : ServerState := handleStreamStart "CA1" "MZ1" 0 emptyServer

/-- Claim C6 trace, step 2: one user turn is accumulated at time 500. -/
def c6AfterTurn : ServerState := recordUserTurn "CA1" "hello" 500 c6AfterStart

/-- Claim C6 trace, step 3: stop of CA1 at time 1000; eviction scheduled for
time 301000. -/
def c6AfterStop : ServerState := cleanupCall "CA1" 1000 c6AfterTurn

/-- Claim C6 trace, step 4: reconnect reusing callSid CA1 at time 2000,
inside the grace period. -/
def c6AfterReconnect : ServerState := handleStreamStart "CA1" "MZ2" 2000 c6AfterStop

/-- Claim C6 trace, step 5: the eviction timer from step 3 fires at its
deadline while the reconnected call is active. -/
def c6AfterTimer : ServerState := fireDueEvictions 301000 c6AfterReconnect

/-- Claim C5 witness state: call CA1 started at time 0. -/
def c5Start : ServerState := handleStreamStart "CA1" "MZ1" 0 emptyServer

/-! ## Helper lemmas -/

theorem callInv_callInit : callInv callInit := by
  refine ⟨rfl, by decide, by decide⟩

theorem callStep_preserves_inv (s : CallBufferState) (e : CallEvent)
    (h : callInv s) : callInv (callStep s e) := by
  obtain ⟨h1, h2, h3⟩ := h
  cases e with
  | media f =>
    refine ⟨?_, h2, h3⟩
    simp only [callStep]
    rw [← h1]
    simp [List.append_assoc]
  | beginCycle =>
    by_cases hp : s.isProcessing
    · have hs : callStep s CallEvent.beginCycle = s := by simp [callStep, hp]
      rw [hs]
      exact ⟨h1, h2, h3⟩
    · by_cases hd : s.pending.length * 20 < 100
      · have hs : callStep s CallEvent.beginCycle = s := by simp [callStep, hp, hd]
        rw [hs]
        exact ⟨h1, h2, h3⟩
      · have hne : ¬ s.inFlightBatches.length = 1 := fun hh =>
          hp (h3.mpr hh)
        have hlen0 : s.inFlightBatches.length = 0 := by omega
        have hnil : s.inFlightBatches = [] := List.length_eq_zero.mp hlen0
        refine ⟨?_, ?_, ?_⟩
        · simp only [callStep, hp, hd, if_false]
          simp only [Bool.false_eq_true, if_false, reduceIte]
          rw [← h1, hnil]
          simp
        · simp [callStep, hp, hd, hnil]
        · simp [callStep, hp, hd, hnil]
  | endCycle =>
    cases hF : s.inFlightBatches with
    | nil =>
      have hs : callStep s CallEvent.endCycle = s := by simp [callStep, hF]
      rw [hs]
      exact ⟨h1, h2, h3⟩
    | cons b rest =>
      have hrest : rest = [] := by
        have h2a := h2
        rw [hF] at h2a
        simp only [List.length_cons] at h2a
        have hz : rest.length = 0 := by omega
        exact List.length_eq_zero.mp hz
      subst hrest
      refine ⟨?_, ?_, ?_⟩
      · simp only [callStep, hF]
        rw [hF] at h1
        simp [List.append_assoc] at h1 ⊢
        exact h1
      · simp [callStep, hF]
      · simp [callStep, hF]

theorem callInv_runCall_aux (events : List CallEvent) (s : CallBufferState)
    (h : callInv s) : callInv (events.foldl callStep s) := by
  induction events generalizing s with
  | nil => exact h
  | cons e rest ih => exact ih (callStep s e) (callStep_preserves_inv s e h)

theorem callInv_runCall (events : List CallEvent) : callInv (runCall events) :=
  callInv_runCall_aux events callInit callInv_callInit

theorem mapLookup_mapDelete {α : Type} (c k : String) (m : List (String × α)) :
    mapLookup c (mapDelete k m) = if c = k then none else mapLookup c m := by
  induction m with
  | nil => simp [mapDelete, mapLookup]
  | cons hd tl ih =>
    obtain ⟨k2, v⟩ := hd
    simp only [mapDelete]
    by_cases h2 : k2 = k
    · rw [if_pos h2, ih]
      by_cases h3 : c = k
      · simp [h3]
      · have h4 : ¬ c = k2 := fun e => h3 (e.trans h2)
        simp [mapLookup, h3, h4]
    · rw [if_neg h2]
      by_cases h3 : c = k2
      · have h4 : ¬ c = k := fun e => h2 (h3.symm.trans e)
        simp [mapLookup, h3, h4, h2]
      · simp [mapLookup, h3, ih]

theorem mapLookup_foldl_delete {α : Type} (c : String) (ds : List (String × Int))
    (m : List (String × α)) (h : ∀ p ∈ ds, p.1 ≠ c) :
    mapLookup c (ds.foldl (fun acc p => mapDelete p.1 acc) m) = mapLookup c m := by
  induction ds generalizing m with
  | nil => rfl
  | cons d rest ih =>
    simp only [List.foldl_cons]
    rw [ih _ (fun p hp => h p (List.mem_cons_of_mem d hp))]
    rw [mapLookup_mapDelete]
    have : c ≠ d.1 := fun e => (h d (List.mem_cons_self d rest)) e.symm
    simp [this]

theorem mapLookup_foldl_delete_none {α : Type} (c : String) (ds : List (String × Int))
    (m : List (String × α)) (h : mapLookup c m = none) :
    mapLookup c (ds.foldl (fun acc p => mapDelete p.1 acc) m) = none := by
  induction ds generalizing m with
  | nil => exact h
  | cons d rest ih =>
    simp only [List.foldl_cons]
    apply ih
    rw [mapLookup_mapDelete]
    by_cases hc : c = d.1 <;> simp [hc, h]

theorem mapLookup_foldl_delete_mem {α : Type} (c : String) (ds : List (String × Int))
    (m : List (String × α)) (h : ∃ p ∈ ds, p.1 = c) :
    mapLookup c (ds.foldl (fun acc p => mapDelete p.1 acc) m) = none := by
  induction ds generalizing m with
  | nil => simp at h
  | cons d rest ih =>
    simp only [List.foldl_cons]
    rcases h with ⟨p, hp, he⟩
    rcases List.mem_cons.mp hp with h1 | h1
    · apply mapLookup_foldl_delete_none
      rw [mapLookup_mapDelete]
      have : c = d.1 := by rw [h1] at he; exact he.symm
      simp [this]
    · exact ih _ ⟨p, h1, he⟩

theorem respondWithSpeech_session_some (s : Session) (now : Int)
    (el : String → Except Unit (Option (List Nat)))
    (oa : String → Except Unit (List Nat)) (t : String) :
    ∃ y : Session, (respondWithSpeech (some s) now el oa t).1 = some y := by
  unfold respondWithSpeech
  rcases hg : generateSpeechAudioElevenLabs el t with _ | a
  · rcases ho : generateSpeechAudio oa t with _ | a2
    · exact ⟨s, by simp [hg, ho]⟩
    · exact ⟨{ s with lastActivity := now }, by simp [hg, ho]⟩
  · exact ⟨{ s with lastActivity := now }, by simp [hg]⟩

theorem processTranscription_session_some (mem : Option Memory) (s : Session)
    (now : Int) (cl : Except Unit CallLogicReply)
    (el : String → Except Unit (Option (List Nat)))
    (oa : String → Except Unit (List Nat)) (t : String) :
    ∃ y : Session, (processTranscription mem (some s) now cl el oa t).2.1 = some y := by
  unfold processTranscription
  rcases mem with _ | m
  · exact ⟨s, rfl⟩
  · rcases cl with e | reply
    · rcases respondWithSpeech_session_some s now el oa apologyText with ⟨y, hy⟩
      exact ⟨y, by simp [hy]⟩
    · rcases respondWithSpeech_session_some s now el oa reply.text_response with ⟨y, hy⟩
      exact ⟨y, by simp [hy]⟩

/-! ## Claim theorems -/

/-- Claim C7: for every interleaving of media frames, cycle entries and
cycle completions on one call session, at most one transcribe, respond,
synthesize cycle is in flight at any time, because processAccumulatedAudio
refuses to start while isProcessing is set. -/
theorem at_most_one_cycle_in_flight :
    ∀ events : List CallEvent, (runCall events).inFlightBatches.length ≤ 1 :=
  fun events => (callInv_runCall events).2.1

/-- Claim C2: in every reachable state of the per-call machine, the
completed batches, the batch being drained, and the pending buffer
partition the arrived frames in order (no frame is lost and no frame
interleaves into a batch already snapshotted); a frame arriving during a
drain goes to the pending buffer and leaves the in-flight batch unchanged;
and a cycle entry either swaps in a fresh empty pending buffer or leaves
the state untouched. -/
theorem pendingAudio_drain_atomic :
    ∀ (events : List CallEvent) (frame : List Nat),
      (runCall events).drained.flatten ++ (runCall events).inFlightBatches.flatten
          ++ (runCall events).pending = (runCall events).arrived
      ∧ (callStep (runCall events) (CallEvent.media frame)).pending
          = (runCall events).pending ++ [frame]
      ∧ (callStep (runCall events) (CallEvent.media frame)).inFlightBatches
          = (runCall events).inFlightBatches
      ∧ ((callStep (runCall events) CallEvent.beginCycle).pending = []
          ∨ callStep (runCall events) CallEvent.beginCycle = runCall events) := by
  intro events frame
  refine ⟨(callInv_runCall events).1, rfl, rfl, ?_⟩
  by_cases h1 : (runCall events).isProcessing
  · right; simp [callStep, h1]
  · by_cases h2 : (runCall events).pending.length * 20 < 100
    · right; simp [callStep, h1, h2]
    · left; simp [callStep, h1, h2]

/-- Claim C3 counterexample: the claim states that decoding any byte with
the per-byte decompression of convertMulawToWav and re-encoding with
linearToMulaw returns the original byte; at byte 0 the round trip returns
239, so the claim is false. -/
theorem mulaw_roundtrip_counterexample : mulawRoundTrip 0 ≠ 0 := by decide

set_option maxRecDepth 4000 in
/-- Claim C3 (amended): the decoder omits the byte complement and the bias
subtraction that would invert linearToMulaw, so the decode-then-encode
round trip returns the original byte for NO value in 0..255; the
composition is not the identity and not a bijection. -/
theorem mulaw_roundtrip_never_identity : ∀ b < 256, mulawRoundTrip b ≠ b := by decide

/-- Witness for the amended claim C3 at byte 128. -/
theorem mulaw_roundtrip_never_identity_witness : mulawRoundTrip 128 ≠ 128 :=
  mulaw_roundtrip_never_identity 128 (by decide)

/-- Claim C4: for every buffered chunk count, clock reading, last-process
time and in-flight flag, both shouldProcessAudio copies compute exactly the
spec's flush rule (buffered duration at least minFlushDuration, or silence
gap at least maxSilenceGap with at least minAudioFloor buffered and no cycle
in flight), instantiated at the conservative 3s/5s/1s and aggressive
0.8s/2s/0.5s profiles. -/
theorem flush_decision_matches_spec :
    ∀ (audioBufferLen : Nat) (now lastProcessTime : Int) (isProcessing : Bool),
      shouldProcessAudioConservative audioBufferLen now lastProcessTime isProcessing
        = flushDecisionSpec (audioBufferLen * 20) (now - lastProcessTime)
            isProcessing 3000 5000 1000
      ∧ shouldProcessAudioAggressive audioBufferLen now lastProcessTime isProcessing
        = flushDecisionSpec (audioBufferLen * 20) (now - lastProcessTime)
            isProcessing 800 2000 500 :=
  fun _ _ _ _ => ⟨rfl, rfl⟩

/-- Claim C9: for every payload (whose length fits the 32-bit size fields),
convertToWav yields a 44-byte header followed by the payload, with RIFF at
bytes 0-3, WAVE at bytes 8-11, and the 32-bit little-endian data-chunk
length at offset 40 equal to the payload length. -/
theorem convertToWav_header_correct :
    ∀ payload : List Nat, payload.length + 36 < 4294967296 →
      (convertToWav payload).length = 44 + payload.length
      ∧ (convertToWav payload).take 4 = [82, 73, 70, 70]
      ∧ ((convertToWav payload).drop 8).take 4 = [87, 65, 86, 69]
      ∧ (convertToWav payload).drop 44 = payload
      ∧ readUInt32LE (((convertToWav payload).drop 40).take 4) = payload.length := by
  intro p h
  refine ⟨?_, ?_, ?_, ?_, ?_⟩
  · have hh : (wavHeader p.length).length = 44 := rfl
    simp [convertToWav, List.length_append, hh]
  · rfl
  · rfl
  · rfl
  · simp [convertToWav, wavHeader, writeUInt32LE, writeUInt16LE, readUInt32LE]
    omega

/-- Witness for claim C9 at the two-byte payload 7, 7. -/
theorem convertToWav_header_correct_witness :
    (convertToWav [7, 7]).drop 44 = [7, 7]
    ∧ readUInt32LE (((convertToWav [7, 7]).drop 40).take 4) = 2 :=
  ⟨(convertToWav_header_correct [7, 7] (by decide)).2.2.2.1,
   (convertToWav_header_correct [7, 7] (by decide)).2.2.2.2⟩

/-- Claim C8: for every cycle entered with isProcessing clear, whatever the
outcomes of transcription, response generation and both synthesis providers
(success, failure, or a thrown error), processAccumulatedAudio returns with
the session still present and isProcessing reset to false, on the success,
error and too-short-audio paths alike. -/
theorem isProcessing_reset_all_paths :
    ∀ (s : Session) (audioBuffer : List (List Nat)) (memory : Option Memory)
      (now : Int) (whisper : List Nat → Except Unit String)
      (callLogic : Except Unit CallLogicReply)
      (elevenLabs : String → Except Unit (Option (List Nat)))
      (openaiTts : String → Except Unit (List Nat)),
      s.isProcessing = false →
      ((processAccumulatedAudio (some s) audioBuffer memory now whisper callLogic
          elevenLabs openaiTts).session.map Session.isProcessing) = some false := by
  intro s buf mem now wh cl el oa h
  by_cases hd : buf.length * 20 < 100
  · simp [processAccumulatedAudio, h, hd]
  · rcases ht : transcribeAudio wh buf.flatten with _ | t
    · simp [processAccumulatedAudio, h, hd, ht]
    · by_cases htr : 0 < (jsTrim t).length
      · obtain ⟨y, hy⟩ := processTranscription_session_some mem
          { s with isProcessing := true, lastProcessTime := now } now cl el oa t
        simp [processAccumulatedAudio, h, hd, ht, htr, hy, sessionClearProcessing]
      · simp [processAccumulatedAudio, h, hd, ht, htr]

/-- Witness for claim C8: a cycle whose generation stage throws still ends
with the session present and isProcessing false. -/
theorem isProcessing_reset_all_paths_witness :
    ((processAccumulatedAudio (some c1Session) c1Buffer (some c1Memory) 1000
        c1Whisper (Except.error ()) c1Eleven c1Tts).session.map
        Session.isProcessing) = some false :=
  isProcessing_reset_all_paths c1Session c1Buffer (some c1Memory) 1000 c1Whisper
    (Except.error ()) c1Eleven c1Tts rfl

/-- Claim C1 counterexample: the claim states that when any pipeline stage
fails the cycle aborts with no outbound audio. Here transcription succeeds,
response generation fails (handleCallLogic throws), synthesis works: the
catch branch of processTranscription sends a synthesized apology, so
outbound audio IS sent for the failed turn. -/
theorem generation_failure_sends_audio_counterexample :
    (processAccumulatedAudio (some c1Session) c1Buffer (some c1Memory) 1000
        c1Whisper (Except.error ()) c1Eleven c1Tts).sent = [[1, 2, 3]]
    ∧ (processAccumulatedAudio (some c1Session) c1Buffer (some c1Memory) 1000
        c1Whisper (Except.error ()) c1Eleven c1Tts).sent ≠ [] := by
  refine ⟨?_, ?_⟩ <;> decide

/-- Claim C1 (amended): a transcription failure yields silence (no outbound
audio); a synthesis failure of both providers yields silence; but a
response-generation failure makes the cycle synthesize and send the fixed
apology text instead of silence. In every case the cycle ends and the call
continues. -/
theorem pipeline_failure_audio_behavior :
    ∀ (s : Session) (buf : List (List Nat)) (memory : Option Memory) (m : Memory)
      (now : Int) (wh : List Nat → Except Unit String)
      (cl : Except Unit CallLogicReply)
      (el : String → Except Unit (Option (List Nat)))
      (oa : String → Except Unit (List Nat)) (t : String) (a : List Nat),
      s.isProcessing = false →
      (processAccumulatedAudio (some s) buf memory now (fun _ => Except.error ())
          cl el oa).sent = []
      ∧ (processAccumulatedAudio (some s) buf memory now wh cl
          (fun _ => Except.ok none) (fun _ => Except.error ())).sent = []
      ∧ (0 < (jsTrim (jsTrim t)).length →
          (processAccumulatedAudio (some s) buf (some m) now (fun _ => Except.ok t)
              (Except.error ()) (fun _ => Except.ok none)
              (fun _ => Except.ok a)).sent
            = if buf.length * 20 < 100 then [] else [a]) := by
  intro s buf memory m now wh cl el oa t a h
  refine ⟨?_, ?_, ?_⟩
  · by_cases hd : buf.length * 20 < 100
    · simp [processAccumulatedAudio, h, hd]
    · simp [processAccumulatedAudio, transcribeAudio, h, hd]
  · by_cases hd : buf.length * 20 < 100
    · simp [processAccumulatedAudio, h, hd]
    · rcases ht : transcribeAudio wh buf.flatten with _ | t2
      · simp [processAccumulatedAudio, h, hd, ht]
      · by_cases htr : 0 < (jsTrim t2).length
        · rcases memory with _ | mm
          · simp [processAccumulatedAudio, processTranscription, h, hd, ht, htr]
          · rcases cl with e | reply <;>
              simp [processAccumulatedAudio, processTranscription, respondWithSpeech,
                generateSpeechAudioElevenLabs, generateSpeechAudio, h, hd, ht, htr]
        · simp [processAccumulatedAudio, h, hd, ht, htr]
  · intro htt
    by_cases hd : buf.length * 20 < 100
    · simp [processAccumulatedAudio, h, hd]
    · simp [processAccumulatedAudio, transcribeAudio, processTranscription,
        respondWithSpeech, generateSpeechAudioElevenLabs, generateSpeechAudio,
        h, hd, htt]

/-- Witness for the amended claim C1: with a nonempty transcript and failing
generation, the synthesized apology payload is sent. -/
theorem pipeline_failure_audio_behavior_witness :
    (processAccumulatedAudio (some c1Session) c1Buffer (some c1Memory) 1000
        (fun _ => Except.ok "hi") (Except.error ()) (fun _ => Except.ok none)
        (fun _ => Except.ok [1, 2, 3])).sent
      = if c1Buffer.length * 20 < 100 then [] else [[1, 2, 3]] :=
  (pipeline_failure_audio_behavior c1Session c1Buffer (some c1Memory) c1Memory 1000
    c1Whisper (Except.error ()) c1Eleven c1Tts "hi" [1, 2, 3] rfl).2.2 (by decide)

/-- Claim C5: for every server state in which call c has conversation memory
and no pending eviction, processing a stop at time t removes the call from
the active registry at once (and the status surface counts exactly that
registry), leaves its conversation memory counted, keeps the memory present
under every timer firing strictly before t plus the grace delay, and removes
it at any firing at or after the deadline. -/
theorem stop_event_lifecycle :
    ∀ (s : ServerState) (c : String) (t : Int) (mem : Memory) (uptime : Int),
      mapLookup c s.conversationMemory = some mem →
      (∀ p ∈ s.pendingEvictions, p.1 ≠ c) →
      mapLookup c (cleanupCall c t s).activeCalls = none
      ∧ (getStats (cleanupCall c t s) uptime).activeCalls
          = (cleanupCall c t s).activeCalls.length
      ∧ mapLookup c (cleanupCall c t s).conversationMemory = some mem
      ∧ (getStats (cleanupCall c t s) uptime).conversationsInMemory
          = s.conversationMemory.length
      ∧ (∀ u : Int, u < t + graceDelayMs →
          mapLookup c (fireDueEvictions u (cleanupCall c t s)).conversationMemory
            = some mem)
      ∧ (∀ u : Int, t + graceDelayMs ≤ u →
          mapLookup c (fireDueEvictions u (cleanupCall c t s)).conversationMemory
            = none) := by
  intro s c t mem uptime hmem hev
  refine ⟨?_, rfl, hmem, rfl, ?_, ?_⟩
  · show mapLookup c (mapDelete c s.activeCalls) = none
    rw [mapLookup_mapDelete]
    simp
  · intro u hu
    show mapLookup c
        (((s.pendingEvictions ++ [(c, t + graceDelayMs)]).filter
            (fun p => decide (p.2 ≤ u))).foldl
          (fun m2 p => mapDelete p.1 m2) s.conversationMemory) = some mem
    rw [mapLookup_foldl_delete]
    · exact hmem
    · intro p hp
      rcases List.mem_filter.mp hp with ⟨hp1, hp2⟩
      rcases List.mem_append.mp hp1 with hin | hin
      · exact hev p hin
      · exfalso
        have hpe : p = (c, t + graceDelayMs) := by simpa using hin
        rw [hpe] at hp2
        simp at hp2
        omega
  · intro u hu
    apply mapLookup_foldl_delete_mem
    refine ⟨(c, t + graceDelayMs), ?_, rfl⟩
    apply List.mem_filter.mpr
    refine ⟨List.mem_append.mpr (Or.inr (by simp)), by simpa using hu⟩

/-- Witness for claim C5: call CA1 started at time 0, stopped at time 1000;
absent from the active registry at once, memory present at a firing at time
300999, gone at a firing at time 301000. -/
theorem stop_event_lifecycle_witness :
    mapLookup "CA1" (cleanupCall "CA1" 1000 c5Start).activeCalls = none
    ∧ mapLookup "CA1"
        (fireDueEvictions 300999 (cleanupCall "CA1" 1000 c5Start)).conversationMemory
        = some ⟨[], "pizzakarachi", []⟩
    ∧ mapLookup "CA1"
        (fireDueEvictions 301000 (cleanupCall "CA1" 1000 c5Start)).conversationMemory
        = none := by
  have h := stop_event_lifecycle c5Start "CA1" 1000 ⟨[], "pizzakarachi", []⟩ 0
    (by decide) (by decide)
  exact ⟨h.1, h.2.2.2.2.1 300999 (by decide), h.2.2.2.2.2 301000 (by decide)⟩

/-- Claim C6 is right about the intended behavior but the code violates it
(code bug): on the concrete trace start CA1, one accumulated user turn, stop
at time 1000, reconnect with the same callSid at time 2000 (inside the
grace period), the accumulated memory is overwritten by a fresh empty one
rather than retained, the eviction scheduled by the stop is not cancelled,
and when it fires at time 301000 it deletes the reconnected call's memory
while the call is still active. -/
theorem reconnect_memory_bug :
    (mapLookup "CA1" c6AfterTurn.conversationMemory).map Memory.messages
        = some [⟨"user", "hello", none, 500⟩]
    ∧ (mapLookup "CA1" c6AfterReconnect.conversationMemory).map Memory.messages
        = some []
    ∧ mapLookup "CA1" c6AfterReconnect.activeCalls ≠ none
    ∧ c6AfterReconnect.pendingEvictions = [("CA1", 301000)]
    ∧ mapLookup "CA1" c6AfterTimer.conversationMemory = none
    ∧ mapLookup "CA1" c6AfterTimer.activeCalls ≠ none := by
  refine ⟨?_, ?_, ?_, ?_, ?_, ?_⟩ <;> decide

/-- Claim C10: a media frame arriving with no callSid bound, or whose bound
callSid has no entry in the active-session registry, leaves the session
registry and the audio buffers unchanged and invokes no processing cycle
(conversation memory is not even an input of handleMediaFrame). -/
theorem media_without_session_no_effect :
    ∀ (activeCalls : List (String × Session))
      (audioBuffers : List (String × List (List Nat)))
      (now : Int) (payload : List Nat) (c : String),
      handleMediaFrame none activeCalls audioBuffers now payload
        = ⟨activeCalls, audioBuffers, false⟩
      ∧ (mapLookup c activeCalls = none →
          handleMediaFrame (some c) activeCalls audioBuffers now payload
            = ⟨activeCalls, audioBuffers, false⟩) := by
  intro acts bufs now p c
  refine ⟨rfl, fun h => ?_⟩
  simp [handleMediaFrame, h]

/-- Witness for claim C10: a frame for an unknown callSid leaves the empty
registries unchanged. -/
theorem media_without_session_no_effect_witness :
    handleMediaFrame (some "CA1") [] [] 5 [0] = ⟨[], [], false⟩ :=
  (media_without_session_no_effect [] [] 5 [0] "CA1").2 rfl
